import Mathlib

set_option autoImplicit false

/-!
Verification development for the `neptune-contrib` utilities.

The repository holds two independent Python components:

* `neptunecontrib/sync/with_json.py` — a command-line script that turns an
  experiment-description JSON file into an ephemeral driver script plus a
  YAML configuration file, shells out to the external `neptune run` tool and
  then removes the two generated files.
* `neptunecontrib/monitoring/xgboost.py` — a factory `neptune_callback`
  producing a per-iteration XGBoost callback that forwards evaluation
  metrics and, on the last boosting iteration, uploads the trained model(s),
  a feature-importance chart and selected tree visualisations.

The development below is a shallow embedding of both files.  Python runtime
values parsed from JSON are modelled by `Json`; Python exceptions by `PyErr`;
the observable effects (file creation and writes, subprocess invocations,
tracking-service uploads) are modelled as explicit event traces returned by
the embedded functions.  JSON numbers are modelled as integers: no settled
claim depends on non-integral numerics, and floating point is outside the
embedding.  External collaborators (the tracking client transport, XGBoost
plotting, graphviz rendering, the `neptune run` tool) are represented only
through the events recording the calls made to them.
-/

namespace Neptunecontrib

/-- A JSON document as parsed by Python's `json.load`: objects become dicts
(here association lists, keys assumed distinct as produced by a parser),
arrays become lists, and numbers are modelled as integers. -/
inductive Json where
  | null
  | bool (b : Bool)
  | num (n : Int)
  | str (s : String)
  | arr (elems : List Json)
  | obj (fields : List (String × Json))

/-- The Python exceptions the two scripts can raise while handling data. -/
inductive PyErr where
  | jsonDecodeError
  | keyError (key : String)
  | typeError
  | attributeError
  deriving Repr, DecidableEq

/-- Python subscription `d[k]` with a string key: dict lookup (raising
`KeyError` when the key is absent), `TypeError` on any non-dict value. -/
def Json.getItem : Json → String → Except PyErr Json
  | .obj fields, key =>
    match fields.lookup key with
    | some v => .ok v
    | none => .error (.keyError key)
  | _, _ => .error .typeError

/-- Python `d.items()`: the field list of a dict, `AttributeError` on any
other value. -/
def Json.items : Json → Except PyErr (List (String × Json))
  | .obj fields => .ok fields
  | _ => .error .attributeError

/-- Python iteration over a value: lists yield their elements, strings yield
their one-character substrings, dicts yield their keys; other values raise
`TypeError`. -/
def Json.pyIterate : Json → Except PyErr (List Json)
  | .arr elems => .ok elems
  | .str s => .ok (s.toList.map fun c => .str (String.mk [c]))
  | .obj fields => .ok (fields.map fun f => .str f.1)
  | _ => .error .typeError

/-- The character of a single decimal digit. -/
def decDigitChar (d : Nat) : Char :=
  match d with
  | 0 => '0'
  | 1 => '1'
  | 2 => '2'
  | 3 => '3'
  | 4 => '4'
  | 5 => '5'
  | 6 => '6'
  | 7 => '7'
  | 8 => '8'
  | 9 => '9'
  | _ => '*'

/-- The decimal digit characters of a natural number, most significant
first, as printed by Python's `str`/`format` (so `0` prints as `"0"`). -/
def pyNatChars (n : Nat) : List Char :=
  if n = 0 then ['0'] else (Nat.digits 10 n).reverse.map decDigitChar

/-- Python's decimal rendering of a natural number. -/
def pyFormatNat (n : Nat) : String :=
  String.mk (pyNatChars n)

/-- Python's decimal rendering of an integer (`str(-3) = "-3"`). -/
def pyFormatInt (i : Int) : String :=
  if i < 0 then "-" ++ pyFormatNat i.natAbs else pyFormatNat i.natAbs

mutual

/-- Python `repr` of a parsed-JSON value (numbers as integers). -/
def Json.pyRepr : Json → String
  | .null => "None"
  | .bool true => "True"
  | .bool false => "False"
  | .num n => pyFormatInt n
  | .str s => "\x27" ++ s ++ "\x27"
  | .arr elems => "[" ++ Json.pyReprList elems ++ "]"
  | .obj fields => "\x7b" ++ Json.pyReprFields fields ++ "\x7d"

/-- Comma-separated `repr`s of the elements of a Python list. -/
def Json.pyReprList : List Json → String
  | [] => ""
  | [v] => Json.pyRepr v
  | v :: rest => Json.pyRepr v ++ ", " ++ Json.pyReprList rest

/-- Comma-separated `key: value` `repr`s of the entries of a Python dict. -/
def Json.pyReprFields : List (String × Json) → String
  | [] => ""
  | [(k, v)] => "\x27" ++ k ++ "\x27: " ++ Json.pyRepr v
  | (k, v) :: rest =>
    "\x27" ++ k ++ "\x27: " ++ Json.pyRepr v ++ ", " ++ Json.pyReprFields rest

end

/-- Python `str` of a parsed-JSON value: the string itself for strings, the
`repr` otherwise (as used by `'{}'.format(value)`). -/
def Json.pyStr : Json → String
  | .str s => s
  | v => v.pyRepr

namespace WithJson

/-- Observable effects of `neptunecontrib/sync/with_json.py`: opening a file
for writing (which creates it on disk), writing a chunk of text to it, and a
`subprocess.call` (recording the command line and the exit code the call
returned). -/
inductive SyncEvent where
  | createFile (path : String)
  | fileWrite (path : String) (content : String)
  | subprocessCall (cmd : String) (exitCode : Int)
  deriving Repr, DecidableEq

/-- The Python source text of the generated driver script, with the single
`format` placeholder still in place (braces written as escapes). -/
def main_content_template : String :=
  "\nimport neptune\nimport json\n\nctx = neptune.Context()\n    \n" ++
  "with open(\x27\x7b\x7d\x27, \x27r\x27) as fp:\n    data = json.load(fp)\n        \n" ++
  "for name, channel in data[\x27channels\x27].items():\n" ++
  "    for x, y in zip(channel[\x27x\x27], channel[\x27y\x27]):\n" ++
  "        ctx.channel_send(name, x, y)\n    \n" ++
  "for name, value in data[\x27properties\x27].items():\n" ++
  "    ctx.properties[name] = value\n            \n" ++
  "ctx.tags.extend(data[\x27tags\x27])\n"

/-- `write_main_content`: the driver-script text written to
`neptune_sync_main.py`, the experiment filepath substituted for the
placeholder. -/
def write_main_content (experiment_filepath : String) : String :=
  main_content_template.replace "\x7b\x7d" experiment_filepath

/-- `write_config_content(config_file, experiment_filepath)`: re-parses the
experiment JSON (its outcome is passed in as `parsed`, `none` when the
document is not valid JSON) and writes the `name:` line, the `parameters:`
header and one indented line per parameter.  Returns the chunks written to
the already-open config file, in order, together with the outcome: the
`json.load` failure, the `KeyError`/`TypeError` of `data['name']` or
`data['parameters']`, or the `AttributeError` of `.items()` on a
non-dict. -/
def write_config_content (parsed : Option Json) : List String × Except PyErr Unit :=
  match parsed with
  | none => ([], .error .jsonDecodeError)
  | some data =>
    match data.getItem "name" with
    | .error e => ([], .error e)
    | .ok nameVal =>
      let nameLine := "name: " ++ nameVal.pyStr ++ "\n\n"
      let headerLine := "parameters:\n"
      match data.getItem "parameters" with
      | .error e => ([nameLine, headerLine], .error e)
      | .ok params =>
        match params.items with
        | .error e => ([nameLine, headerLine], .error e)
        | .ok fields =>
          ([nameLine, headerLine] ++
            fields.map (fun f => "   " ++ f.1 ++ ": " ++ f.2.pyStr ++ "\n"),
           .ok ())

/-- The `neptune run` command line built by `main` (the Python source breaks
the string over continuation lines whose indentation stays inside the
string). -/
def sync_command (project_name : String) : String :=
  "neptune run         --exclude neptune_sync_main.py         --project " ++
  project_name ++
  "         --config neptune_sync_config.yaml         neptune_sync_main.py"

/-- The cleanup command line run by `main` after the sync subprocess. -/
def rm_command : String :=
  "rm neptune_sync_config.yaml neptune_sync_main.py"

/-- `main(args)`: writes the driver script, then opens the config file and
fills it via `write_config_content` (whose `json.load` may fail — any
exception propagates and aborts the rest of `main`), then invokes the sync
tool and the cleanup command, discarding both exit codes.  `parsed` is the
outcome of parsing the experiment JSON; `syncExit`/`rmExit` are the exit
codes the two `subprocess.call`s would return.  The result is the ordered
trace of observable effects plus `main`'s own outcome. -/
def main (filepath project_name : String) (parsed : Option Json)
    (syncExit rmExit : Int) : List SyncEvent × Except PyErr Unit :=
  let mainEvents := [SyncEvent.createFile "neptune_sync_main.py",
                     SyncEvent.fileWrite "neptune_sync_main.py" (write_main_content filepath)]
  let configWritten := write_config_content parsed
  let configEvents := SyncEvent.createFile "neptune_sync_config.yaml" ::
    configWritten.1.map (SyncEvent.fileWrite "neptune_sync_config.yaml")
  match configWritten.2 with
  | .error e => (mainEvents ++ configEvents, .error e)
  | .ok _ =>
    (mainEvents ++ configEvents ++
      [SyncEvent.subprocessCall (sync_command project_name) syncExit,
       SyncEvent.subprocessCall rm_command rmExit],
     .ok ())

/-- Tracking calls made by the generated driver script when it is executed:
one `ctx.channel_send(name, x, y)` per zipped channel point, one
`ctx.properties[name] = value` per property, and one appended tag per
element of `data['tags']` (via `ctx.tags.extend`). -/
inductive DriverEvent where
  | channel_send (name : String) (x y : Json)
  | set_property (name : String) (value : Json)
  | append_tag (tag : Json)

/-- One round of the driver script's channel loop body:
`for x, y in zip(channel['x'], channel['y']): ctx.channel_send(name, x, y)`. -/
def sendChannel (name : String) (channel : Json) : List DriverEvent × Except PyErr Unit :=
  match channel.getItem "x" with
  | .error e => ([], .error e)
  | .ok xsVal =>
    match channel.getItem "y" with
    | .error e => ([], .error e)
    | .ok ysVal =>
      match xsVal.pyIterate with
      | .error e => ([], .error e)
      | .ok xs =>
        match ysVal.pyIterate with
        | .error e => ([], .error e)
        | .ok ys =>
          ((xs.zip ys).map fun p => DriverEvent.channel_send name p.1 p.2, .ok ())

/-- The driver script's outer channel loop
(`for name, channel in data['channels'].items()`), accumulating the sends
already performed when a later channel raises. -/
def sendChannels : List (String × Json) → List DriverEvent × Except PyErr Unit
  | [] => ([], .ok ())
  | (name, channel) :: rest =>
    match sendChannel name channel with
    | (evs, .error e) => (evs, .error e)
    | (evs, .ok _) =>
      let tail := sendChannels rest
      (evs ++ tail.1, tail.2)

/-- The behaviour of the generated driver script executed against the parsed
JSON document `data`: replay every channel point, then set every property,
then append every tag.  An exception aborts the script, keeping the events
already emitted. -/
def run_driver (data : Json) : List DriverEvent × Except PyErr Unit :=
  match data.getItem "channels" with
  | .error e => ([], .error e)
  | .ok channels =>
    match channels.items with
    | .error e => ([], .error e)
    | .ok channelList =>
      match sendChannels channelList with
      | (evs, .error e) => (evs, .error e)
      | (evs, .ok _) =>
        match data.getItem "properties" with
        | .error e => (evs, .error e)
        | .ok props =>
          match props.items with
          | .error e => (evs, .error e)
          | .ok propList =>
            let propEvents := propList.map fun p => DriverEvent.set_property p.1 p.2
            match data.getItem "tags" with
            | .error e => (evs ++ propEvents, .error e)
            | .ok tagsVal =>
              match tagsVal.pyIterate with
              | .error e => (evs ++ propEvents, .error e)
              | .ok tagList =>
                (evs ++ propEvents ++ tagList.map DriverEvent.append_tag, .ok ())

/-- One channel of the experiment JSON: `{x: [...], y: [...]}`. -/
structure ChannelData where
  x : List Json
  y : List Json

/-- A well-formed experiment document, with the five top-level sections the
two generated files consume. -/
structure ExperimentRecord where
  name : Json
  parameters : List (String × Json)
  tags : List Json
  channels : List (String × ChannelData)
  properties : List (String × Json)

/-- The JSON encoding of one channel. -/
def ChannelData.toJson (c : ChannelData) : Json :=
  .obj [("x", .arr c.x), ("y", .arr c.y)]

/-- The JSON document of a well-formed experiment record. -/
def ExperimentRecord.toJson (r : ExperimentRecord) : Json :=
  .obj [("name", r.name),
        ("parameters", .obj r.parameters),
        ("tags", .arr r.tags),
        ("channels", .obj (r.channels.map fun c => (c.1, c.2.toJson))),
        ("properties", .obj r.properties)]

/-- The channel replay a record's channels call for: one `channel_send` per
zipped `(x, y)` pair of every channel, in the given order. -/
def channelEvents (r : ExperimentRecord) : List DriverEvent :=
  (r.channels.map fun c =>
    (c.2.x.zip c.2.y).map fun p => DriverEvent.channel_send c.1 p.1 p.2).flatten

/-- One `set_property` per property of the record, in order. -/
def propertyEvents (r : ExperimentRecord) : List DriverEvent :=
  r.properties.map fun p => DriverEvent.set_property p.1 p.2

/-- One `append_tag` per tag of the record, in order. -/
def tagEvents (r : ExperimentRecord) : List DriverEvent :=
  r.tags.map DriverEvent.append_tag

end WithJson

namespace Xgboost

/-- A Python runtime value as it can be passed for one of the keyword
arguments of `neptune_callback` (`None`, booleans, integers, strings, lists
and tuples cover every case the validation distinguishes). -/
inductive PyVal where
  | none
  | bool (b : Bool)
  | int (n : Int)
  | str (s : String)
  | list (elems : List PyVal)
  | tuple (elems : List PyVal)

/-- Python's `'{}'.format(type(v))` rendering of a value's type. -/
def PyVal.pyTypeName : PyVal → String
  | .none => "<class \x27NoneType\x27>"
  | .bool _ => "<class \x27bool\x27>"
  | .int _ => "<class \x27int\x27>"
  | .str _ => "<class \x27str\x27>"
  | .list _ => "<class \x27list\x27>"
  | .tuple _ => "<class \x27tuple\x27>"

/-- Python `isinstance(v, bool)`. -/
def PyVal.isBool : PyVal → Bool
  | .bool _ => true
  | _ => false

/-- Python `isinstance(v, int)`: `bool` is a subclass of `int`, so booleans
also pass this check. -/
def PyVal.isInt : PyVal → Bool
  | .int _ => true
  | .bool _ => true
  | _ => false

/-- Python `isinstance(v, list)`. -/
def PyVal.isList : PyVal → Bool
  | .list _ => true
  | _ => false

/-- Python `isinstance(v, tuple)`. -/
def PyVal.isTuple : PyVal → Bool
  | .tuple _ => true
  | _ => false

/-- Python truthiness, as used by `and log_model`, `and log_tree`, …. -/
def PyVal.pyTruthy : PyVal → Bool
  | .none => false
  | .bool b => b
  | .int n => n != 0
  | .str s => s != ""
  | .list elems => !elems.isEmpty
  | .tuple elems => !elems.isEmpty

/-- The elements of a Python list or tuple (the validated `log_tree` is
always a list by the time it is iterated). -/
def PyVal.elems : PyVal → List PyVal
  | .list elems => elems
  | .tuple elems => elems
  | _ => []

mutual

/-- Python `repr` of a `PyVal`. -/
def PyVal.pyRepr : PyVal → String
  | .none => "None"
  | .bool true => "True"
  | .bool false => "False"
  | .int n => pyFormatInt n
  | .str s => "\x27" ++ s ++ "\x27"
  | .list elems => "[" ++ PyVal.pyReprList elems ++ "]"
  | .tuple [] => "()"
  | .tuple [v] => "(" ++ PyVal.pyRepr v ++ ",)"
  | .tuple elems => "(" ++ PyVal.pyReprList elems ++ ")"

/-- Comma-separated `repr`s of a sequence of values. -/
def PyVal.pyReprList : List PyVal → String
  | [] => ""
  | [v] => PyVal.pyRepr v
  | v :: rest => PyVal.pyRepr v ++ ", " ++ PyVal.pyReprList rest

end

/-- Python `str` of a `PyVal`, as used by `'tree_{}'.format(i)`. -/
def PyVal.pyStr : PyVal → String
  | .str s => s
  | v => v.pyRepr

/-- The two exceptions `neptune_callback` can raise during construction: the
`NeptuneException` for a missing experiment, and the `AssertionError` of a
failed parameter check. -/
inductive XgbError where
  | neptuneException (msg : String)
  | assertionError (msg : String)
  deriving Repr, DecidableEq

/-- The message of the `NeptuneException` raised when no experiment is
running. -/
def no_experiment_msg : String :=
  "No currently running Neptune experiment. \n" ++
  "To start logging to Neptune create experiment by using: `neptune.create_experiment()`. \n" ++
  "More info in the documentation: " ++
  "<https://docs.neptune.ai/neptune-client/docs/project.html#neptune.projects.Project.create_experiment>."

/-- The message of a failed parameter assertion, e.g.
`log_model must be bool, got <class 'str'> instead. Check log_model parameter.` -/
def assert_msg (option requirement : String) (v : PyVal) : String :=
  option ++ " must be " ++ requirement ++ ", got " ++ v.pyTypeName ++
  " instead. Check " ++ option ++ " parameter."

/-- The keyword arguments of `neptune_callback`, still as raw Python values
(the open-ended `**kwargs` forwarded to the plotting collaborators is not
inspected by the callback and is elided). -/
structure XgbParams where
  log_model : PyVal
  log_importance : PyVal
  max_num_features : PyVal
  log_tree : PyVal

/-- The source's default argument values:
`log_model=True, log_importance=True, max_num_features=None, log_tree=(0,)`. -/
def XgbParams.defaults : XgbParams :=
  XgbParams.mk (.bool true) (.bool true) .none (.tuple [.int 0])

/-- The environment captured by the closure `neptune_callback` returns:
the four (possibly tuple-to-list converted) option values. -/
structure XgbCallback where
  log_model : PyVal
  log_importance : PyVal
  max_num_features : PyVal
  log_tree : PyVal

/-- The `if isinstance(log_tree, tuple): log_tree = list(log_tree)`
conversion. -/
def convert_log_tree : PyVal → PyVal
  | .tuple elems => .list elems
  | v => v

/-- Does `if max_num_features is not None: assert isinstance(max_num_features,
int)` fail?  (`False` both for `None` and for an int.) -/
def max_num_features_bad : PyVal → Bool
  | .none => false
  | v => !v.isInt

/-- Does `if log_tree is not None: assert isinstance(log_tree, list)` fail,
for the already tuple-converted value? -/
def log_tree_bad : PyVal → Bool
  | .none => false
  | v => !v.isList

/-- `neptune_callback(log_model, log_importance, max_num_features,
log_tree, **kwargs)`: first the active-experiment check (raising
`NeptuneException` when `neptune.get_experiment()` raises
`NoExperimentContext`, modelled by `hasActiveExperiment = false`), then the
four parameter assertions in source order, then the closure is returned.
The factory itself performs no tracking calls. -/
def neptune_callback (hasActiveExperiment : Bool) (p : XgbParams) :
    Except XgbError XgbCallback :=
  if !hasActiveExperiment then
    .error (.neptuneException no_experiment_msg)
  else if !p.log_model.isBool then
    .error (.assertionError (assert_msg "log_model" "bool" p.log_model))
  else if !p.log_importance.isBool then
    .error (.assertionError (assert_msg "log_importance" "bool" p.log_importance))
  else if max_num_features_bad p.max_num_features then
    .error (.assertionError (assert_msg "max_num_features" "int" p.max_num_features))
  else
    let log_tree := convert_log_tree p.log_tree
    if log_tree_bad log_tree then
      .error (.assertionError (assert_msg "log_tree" "list of int" log_tree))
    else
      .ok (XgbCallback.mk p.log_model p.log_importance p.max_num_features log_tree)

/-- One cross-validation fold as handed over by `xgb.cv` (`cvpack.bst` is
the fold's booster); boosters are opaque handles of type `μ`. -/
structure CVPack (μ : Type) where
  bst : μ

/-- The `CallbackEnv` snapshot XGBoost passes to an iteration callback, with
boosters of type `μ` and metric values of type `ν` (both opaque to the
callback). `cvfolds` is `none` for plain training and a list of folds for
`xgb.cv`. -/
structure CallbackEnv (μ ν : Type) where
  iteration : Int
  end_iteration : Int
  evaluation_result_list : List (String × ν)
  model : μ
  cvfolds : Option (List (CVPack μ))

/-- Python truthiness of `env.cvfolds`: `None` and the empty list are
falsy. -/
def cvTruthy {μ : Type} : Option (List (CVPack μ)) → Bool
  | some (_ :: _) => true
  | _ => false

/-- The calls the callback makes against the tracking service:
`neptune.log_metric`, a model serialize-and-upload (`_log_model`, recording
the artifact's file name inside its scoped temporary directory), the
feature-importance figure upload, and a tree rendering-and-upload
(`neptune.log_image('trees', <dir>/<png_path>, image_name=<image_name>)`;
the ephemeral temporary-directory prefix is elided). -/
inductive NeptuneEvent (μ ν : Type) where
  | log_metric (name : String) (value : ν)
  | log_artifact (file_name : String) (booster : μ)
  | log_importance_image (booster : μ) (max_num_features : PyVal)
  | log_tree_image (png_path : String) (image_name : String) (booster : μ) (tree_index : PyVal)

/-- `_log_model(name, booster)`: serialize the booster to `<tempdir>/name`
and upload that file as an artifact (one upload per call). -/
def _log_model {μ ν : Type} (name : String) (booster : μ) : NeptuneEvent μ ν :=
  .log_artifact name booster

/-- The artifact file name `'cv-fold-{}-bst.model'.format(i)` used for fold
`i` in the cross-validation case. -/
def fold_model_name (i : Nat) : String :=
  "cv-fold-" ++ pyFormatNat i ++ "-bst.model"

/-- The inner `callback(env)` closure returned by `neptune_callback`: always
log every evaluation metric, and on the last boosting iteration
(`env.iteration + 1 == env.end_iteration`) additionally upload the model(s)
when `log_model` is truthy, the feature-importance image when
`log_importance` is truthy, and one rendered tree image per entry of
`log_tree` when it is truthy.  The result is the ordered trace of tracking
calls. -/
def callback {μ ν : Type} (cb : XgbCallback) (env : CallbackEnv μ ν) :
    List (NeptuneEvent μ ν) :=
  let metricEvents := env.evaluation_result_list.map fun kv =>
    NeptuneEvent.log_metric kv.1 kv.2
  let final := env.iteration + 1 == env.end_iteration
  let modelEvents :=
    if final && cb.log_model.pyTruthy then
      if cvTruthy env.cvfolds then
        (env.cvfolds.getD []).enum.map fun ip =>
          _log_model (fold_model_name ip.1) ip.2.bst
      else
        [_log_model "bst.model" env.model]
    else []
  let importanceEvents :=
    if final && cb.log_importance.pyTruthy then
      [NeptuneEvent.log_importance_image env.model cb.max_num_features]
    else []
  let treeEvents :=
    if final && cb.log_tree.pyTruthy then
      cb.log_tree.elems.map fun i =>
        NeptuneEvent.log_tree_image ("tree_" ++ i.pyStr ++ ".png")
          ("tree_" ++ i.pyStr) env.model i
    else []
  metricEvents ++ modelEvents ++ importanceEvents ++ treeEvents

/-- Is the event a `log_metric` call? -/
def isMetricEvent {μ ν : Type} : NeptuneEvent μ ν → Bool
  | .log_metric _ _ => true
  | _ => false

/-- The artifact file names uploaded in a trace, in order. -/
def artifactNames {μ ν : Type} (evs : List (NeptuneEvent μ ν)) : List String :=
  evs.filterMap fun e =>
    match e with
    | .log_artifact n _ => some n
    | _ => .none

/-- The `image_name` tags of the tree images uploaded in a trace, in
order. -/
def treeImageNames {μ ν : Type} (evs : List (NeptuneEvent μ ν)) : List String :=
  evs.filterMap fun e =>
    match e with
    | .log_tree_image _ img _ _ => some img
    | _ => .none

/-- Modelled from the spec (§3, `ExportConfig` invariants): `maxFeatures`,
when present, is a non-negative integer, and `treeIndices`, when present, is
a sequence of non-negative integers.  This follows the spec's words, to be
compared with what `neptune_callback` actually accepts. -/
def exportConfigInvariant (cb : XgbCallback) : Bool :=
  (match cb.max_num_features with
   | .none => true
   | .int n => decide (0 ≤ n)
   | _ => false) &&
  (match cb.log_tree with
   | .none => true
   | .list elems =>
     elems.all fun v =>
       match v with
       | .int n => decide (0 ≤ n)
       | _ => false
   | _ => false)

/-- Do all four factory-time parameter checks pass (after the tuple-to-list
conversion of `log_tree`)? -/
def paramsTypeOk (p : XgbParams) : Bool :=
  p.log_model.isBool && p.log_importance.isBool &&
  !max_num_features_bad p.max_num_features &&
  !log_tree_bad (convert_log_tree p.log_tree)

end Xgboost

/-! ### Concrete fixtures used by witnesses and counterexamples -/

/-- A minimal well-formed experiment document for the sync script. -/
def doc0 : Json :=
  .obj [("name", .str "baseline"), ("parameters", .obj [("lr", .num 1)])]

/-- A validated callback configuration with every export switched on and
`log_tree = [0, 2, 5]`. -/
def cbAllOn : Xgboost.XgbCallback :=
  Xgboost.XgbCallback.mk (.bool true) (.bool true) .none
    (.list [.int 0, .int 2, .int 5])

/-- A final-iteration single-training-run environment (`iteration 9` of
`10`). -/
def envTrain : Xgboost.CallbackEnv Nat Nat :=
  Xgboost.CallbackEnv.mk 9 10 [("train-auc", 5)] 7 none

/-- A final-iteration cross-validation environment with two folds. -/
def envCv : Xgboost.CallbackEnv Nat Nat :=
  Xgboost.CallbackEnv.mk 9 10 [] 7 (some [Xgboost.CVPack.mk 1, Xgboost.CVPack.mk 2])

/-- A non-final environment (`iteration 3` of `10`) with two metrics. -/
def envMid : Xgboost.CallbackEnv Nat Nat :=
  Xgboost.CallbackEnv.mk 3 10 [("a", 4), ("b", 6)] 7 none

end Neptunecontrib

open Neptunecontrib Neptunecontrib.WithJson Neptunecontrib.Xgboost

/-! ### Supporting lemmas -/

theorem decDigitChar_inj {d₁ d₂ : Nat} (h₁ : d₁ < 10) (h₂ : d₂ < 10)
    (h : decDigitChar d₁ = decDigitChar d₂) : d₁ = d₂ := by
  interval_cases d₁ <;> interval_cases d₂ <;> first
    | rfl
    | exact absurd h (by decide)

theorem map_decDigitChar_inj : ∀ (l₁ l₂ : List Nat), (∀ d ∈ l₁, d < 10) →
    (∀ d ∈ l₂, d < 10) → l₁.map decDigitChar = l₂.map decDigitChar → l₁ = l₂
  | [], [], _, _, _ => rfl
  | [], _ :: _, _, _, h => by simp at h
  | _ :: _, [], _, _, h => by simp at h
  | d₁ :: l₁, d₂ :: l₂, hb₁, hb₂, h => by
    simp only [List.map_cons, List.cons.injEq] at h
    have hd := decDigitChar_inj (hb₁ d₁ (by simp)) (hb₂ d₂ (by simp)) h.1
    have hl := map_decDigitChar_inj l₁ l₂ (fun d hd => hb₁ d (by simp [hd]))
      (fun d hd => hb₂ d (by simp [hd])) h.2
    rw [hd, hl]

theorem digits_bounded {n : Nat} : ∀ d ∈ (Nat.digits 10 n).reverse, d < 10 := by
  intro d hd
  exact Nat.digits_lt_base (by norm_num) (List.mem_reverse.mp hd)

theorem digits_eq_zero_digit {n : Nat} (h : Nat.digits 10 n = [0]) : n = 0 := by
  have := Nat.ofDigits_digits 10 n
  rw [h] at this
  simpa [Nat.ofDigits_cons, Nat.ofDigits_nil] using this.symm

theorem pyNatChars_inj {m n : Nat} (h : pyNatChars m = pyNatChars n) : m = n := by
  unfold pyNatChars at h
  by_cases hm : m = 0
  · by_cases hn : n = 0
    · rw [hm, hn]
    · rw [if_pos hm, if_neg hn] at h
      have h0 : ([0] : List Nat).map decDigitChar =
          (Nat.digits 10 n).reverse.map decDigitChar := by
        rw [← h]; rfl
      have heq := map_decDigitChar_inj [0] (Nat.digits 10 n).reverse (by decide)
        digits_bounded h0
      have hdig : Nat.digits 10 n = [0] := by
        rw [← List.reverse_reverse (Nat.digits 10 n), ← heq]
        rfl
      exact absurd (digits_eq_zero_digit hdig) hn
  · by_cases hn : n = 0
    · rw [if_neg hm, if_pos hn] at h
      have h0 : (Nat.digits 10 m).reverse.map decDigitChar =
          ([0] : List Nat).map decDigitChar := by
        rw [h]; rfl
      have heq := map_decDigitChar_inj (Nat.digits 10 m).reverse [0] digits_bounded
        (by decide) h0
      have hdig : Nat.digits 10 m = [0] := by
        rw [← List.reverse_reverse (Nat.digits 10 m), heq]
        rfl
      exact absurd (digits_eq_zero_digit hdig) hm
    · rw [if_neg hm, if_neg hn] at h
      have heq := map_decDigitChar_inj _ _ digits_bounded digits_bounded h
      have hdig := List.reverse_inj.mp heq
      have h1 := Nat.ofDigits_digits 10 m
      rw [hdig, Nat.ofDigits_digits] at h1
      exact h1.symm

theorem pyFormatNat_inj : Function.Injective pyFormatNat := by
  intro m n h
  exact pyNatChars_inj (congrArg String.data h)

theorem fold_model_name_inj : Function.Injective fold_model_name := by
  intro i j h
  have hdata := congrArg String.data h
  simp only [fold_model_name, String.data_append] at hdata
  have h1 := List.append_cancel_right hdata
  have h2 := List.append_cancel_left h1
  exact pyFormatNat_inj (congrArg String.mk h2)

theorem max_num_features_bad_false {v : PyVal} (h : max_num_features_bad v = false) :
    v = .none ∨ v.isInt = true := by
  cases v <;> simp_all [max_num_features_bad, PyVal.isInt]

theorem log_tree_bad_false {v : PyVal} (h : log_tree_bad v = false) :
    v = .none ∨ v.isList = true := by
  cases v <;> simp_all [log_tree_bad, PyVal.isList]

/-! ### Claims about the callback factory -/

/-- Claim C6: if no active tracking session exists in process-wide state
when the callback factory is called, the factory fails immediately with the
no-experiment `NeptuneException` — before any callback is returned and
whatever the supplied configuration. -/
theorem C6_no_session_fail_fast (p : XgbParams) :
    neptune_callback false p = .error (.neptuneException no_experiment_msg) := rfl

/-- Claim C10: the active-session check precedes configuration validation:
with no active session the factory fails with the no-session error even for
a configuration that validation itself would reject (as the second conjunct
shows it would, with an `AssertionError`, were a session active). -/
theorem C10_no_session_takes_precedence (p : XgbParams)
    (h : paramsTypeOk p = false) :
    neptune_callback false p = .error (.neptuneException no_experiment_msg) ∧
    ∃ msg, neptune_callback true p = .error (.assertionError msg) := by
  refine ⟨rfl, ?_⟩
  by_cases h1 : p.log_model.isBool = true
  · by_cases h2 : p.log_importance.isBool = true
    · by_cases h3 : max_num_features_bad p.max_num_features = true
      · exact ⟨assert_msg "max_num_features" "int" p.max_num_features,
          by simp [neptune_callback, h1, h2, h3]⟩
      · have h4 : log_tree_bad (convert_log_tree p.log_tree) = true := by
          simp [paramsTypeOk, h1, h2, h3] at h
          exact h
        exact ⟨assert_msg "log_tree" "list of int" (convert_log_tree p.log_tree),
          by simp [neptune_callback, h1, h2, h3, h4]⟩
    · exact ⟨assert_msg "log_importance" "bool" p.log_importance,
        by simp [neptune_callback, h1, h2]⟩
  · exact ⟨assert_msg "log_model" "bool" p.log_model,
      by simp [neptune_callback, h1]⟩

/-- Witness for C10 at a concrete invalid configuration
(`log_model="yes"`). -/
theorem C10_no_session_takes_precedence_witness :
    paramsTypeOk (XgbParams.mk (.str "yes") (.bool true) .none (.tuple [.int 0])) = false ∧
    (neptune_callback false (XgbParams.mk (.str "yes") (.bool true) .none (.tuple [.int 0])) =
        .error (.neptuneException no_experiment_msg) ∧
      ∃ msg, neptune_callback true (XgbParams.mk (.str "yes") (.bool true) .none (.tuple [.int 0])) =
        .error (.assertionError msg)) :=
  ⟨rfl, C10_no_session_takes_precedence _ rfl⟩

/-- Claim C3 is false on the code: `max_num_features = -5` violates the
spec's non-negativity invariant, yet the factory accepts it (the assertion
only checks `isinstance(..., int)`), returning a callback instead of
rejecting the configuration. -/
theorem C3_counterexample :
    neptune_callback true (XgbParams.mk (.bool true) (.bool true) (.int (-5)) (.tuple [.int 0])) =
      .ok (XgbCallback.mk (.bool true) (.bool true) (.int (-5)) (.list [.int 0])) ∧
    exportConfigInvariant (XgbCallback.mk (.bool true) (.bool true) (.int (-5)) (.list [.int 0])) = false :=
  ⟨rfl, rfl⟩

/-- Claim C3 as amended: every configuration the factory accepts satisfies
the *type-shape* part of the invariants — `log_model`/`log_importance` are
booleans, `max_num_features` is absent or an int (in the Python sense), and
`log_tree` is absent or a list (tuples having been converted) — but
non-negativity (and the element types of `log_tree`) are not validated. -/
theorem C3_amended_type_shape_invariant (active : Bool) (p : XgbParams) (cb : XgbCallback)
    (h : neptune_callback active p = .ok cb) :
    cb.log_model.isBool = true ∧
    cb.log_importance.isBool = true ∧
    (cb.max_num_features = .none ∨ cb.max_num_features.isInt = true) ∧
    (cb.log_tree = .none ∨ cb.log_tree.isList = true) := by
  cases active with
  | false => simp [neptune_callback] at h
  | true =>
    unfold neptune_callback at h
    simp only [Bool.not_true, if_false, Bool.false_eq_true] at h
    split_ifs at h with h1 h2 h3 h4
    rw [Except.ok.injEq] at h
    subst h
    refine ⟨?_, ?_, ?_, ?_⟩
    · simpa using h1
    · simpa using h2
    · exact max_num_features_bad_false (by simpa using h3)
    · exact log_tree_bad_false (by simpa using h4)

/-- Witness for the amended C3 at the factory's default arguments. -/
theorem C3_amended_type_shape_invariant_witness :
    neptune_callback true XgbParams.defaults =
      .ok (XgbCallback.mk (.bool true) (.bool true) .none (.list [.int 0])) ∧
    ((XgbCallback.mk (.bool true) (.bool true) .none (.list [.int 0])).log_model.isBool = true ∧
     (XgbCallback.mk (.bool true) (.bool true) .none (.list [.int 0])).log_importance.isBool = true ∧
     ((XgbCallback.mk (.bool true) (.bool true) .none (.list [.int 0])).max_num_features = .none ∨
      (XgbCallback.mk (.bool true) (.bool true) .none (.list [.int 0])).max_num_features.isInt = true) ∧
     ((XgbCallback.mk (.bool true) (.bool true) .none (.list [.int 0])).log_tree = .none ∨
      (XgbCallback.mk (.bool true) (.bool true) .none (.list [.int 0])).log_tree.isList = true)) :=
  ⟨rfl, C3_amended_type_shape_invariant true XgbParams.defaults _ rfl⟩

/-- Claim C4 concerns a code bug: `log_tree = ["a"]` carries a value of the
wrong type (the docstring and the assertion's own message require a list of
ints), yet the factory accepts the configuration and returns a callback —
the `assert isinstance(log_tree, list)` check never inspects the element
types, so no `AssertionError` naming `log_tree` is raised at factory
time. -/
theorem C4_wrong_element_type_accepted :
    neptune_callback true (XgbParams.mk (.bool true) (.bool true) .none (.list [.str "a"])) =
      .ok (XgbCallback.mk (.bool true) (.bool true) .none (.list [.str "a"])) := rfl

/-! ### Claims about the per-iteration callback -/

theorem callback_non_final {μ ν : Type} (cb : XgbCallback) (env : CallbackEnv μ ν)
    (h : env.iteration + 1 ≠ env.end_iteration) :
    callback cb env = env.evaluation_result_list.map fun kv =>
      NeptuneEvent.log_metric kv.1 kv.2 := by
  have hb : (env.iteration + 1 == env.end_iteration) = false := beq_eq_false_iff_ne.mpr h
  simp [callback, hb]

/-- Claim C7: over any sequence of iteration events whose 1-based iteration
number stays strictly below the total count, the callback performs exactly
one round of metric recording per event — one `log_metric` per (name, value)
pair, in order — and nothing else: no artifact and no image upload. -/
theorem C7_non_final_only_metrics {μ ν : Type} (cb : XgbCallback)
    (envs : List (CallbackEnv μ ν))
    (h : ∀ env ∈ envs, env.iteration + 1 < env.end_iteration) :
    (envs.map (callback cb)).flatten =
      (envs.map fun env => env.evaluation_result_list.map fun kv =>
        NeptuneEvent.log_metric kv.1 kv.2).flatten ∧
    ∀ ev ∈ (envs.map (callback cb)).flatten, isMetricEvent ev = true := by
  have hmap : envs.map (callback cb) = envs.map fun env =>
      env.evaluation_result_list.map fun kv => NeptuneEvent.log_metric kv.1 kv.2 :=
    List.map_congr_left fun env henv =>
      callback_non_final cb env (ne_of_lt (h env henv))
  refine ⟨by rw [hmap], ?_⟩
  intro ev hev
  rw [hmap] at hev
  rcases List.mem_flatten.mp hev with ⟨l, hl, hevl⟩
  rcases List.mem_map.mp hl with ⟨env, _, rfl⟩
  rcases List.mem_map.mp hevl with ⟨kv, _, rfl⟩
  rfl

/-- Witness for C7 on a two-event non-final sequence. -/
theorem C7_non_final_only_metrics_witness :
    (∀ env ∈ [envMid, envMid], env.iteration + 1 < env.end_iteration) ∧
    (([envMid, envMid].map (callback cbAllOn)).flatten =
      ([envMid, envMid].map fun env => env.evaluation_result_list.map fun kv =>
        NeptuneEvent.log_metric kv.1 kv.2).flatten ∧
    ∀ ev ∈ ([envMid, envMid].map (callback cbAllOn)).flatten, isMetricEvent ev = true) :=
  ⟨by decide, C7_non_final_only_metrics cbAllOn [envMid, envMid] (by decide)⟩

theorem artifactNames_append {μ ν : Type} (l₁ l₂ : List (NeptuneEvent μ ν)) :
    artifactNames (l₁ ++ l₂) = artifactNames l₁ ++ artifactNames l₂ :=
  List.filterMap_append l₁ l₂ _

theorem artifactNames_metric_map {μ ν : Type} (l : List (String × ν)) :
    artifactNames ((l.map fun kv => NeptuneEvent.log_metric kv.1 kv.2 :
      List (NeptuneEvent μ ν))) = [] := by
  induction l with
  | nil => rfl
  | cons kv l ih => simp [artifactNames, List.filterMap_cons, ih]

theorem artifactNames_tree_map {μ ν : Type} (model : μ) (l : List PyVal) :
    artifactNames ((l.map fun i =>
      NeptuneEvent.log_tree_image ("tree_" ++ i.pyStr ++ ".png") ("tree_" ++ i.pyStr) model i :
        List (NeptuneEvent μ ν))) = [] := by
  induction l with
  | nil => rfl
  | cons i l ih => simp [artifactNames, List.filterMap_cons, ih]

theorem artifactNames_model_map {μ ν : Type} (l : List (Nat × CVPack μ)) :
    artifactNames ((l.map fun ip => (_log_model (fold_model_name ip.1) ip.2.bst :
      NeptuneEvent μ ν))) = l.map fun ip => fold_model_name ip.1 := by
  induction l with
  | nil => rfl
  | cons ip l ih => simpa [artifactNames, _log_model, List.filterMap_cons] using ih

theorem enum_fold_names {α : Type} (l : List α) :
    l.enum.map (fun ip => fold_model_name ip.1) = (List.range l.length).map fold_model_name := by
  rw [← List.enum_map_fst l, List.map_map]
  rfl

theorem artifactNames_nil {μ ν : Type} : artifactNames ([] : List (NeptuneEvent μ ν)) = [] := rfl

theorem artifactNames_single_model {μ ν : Type} (m : μ) :
    artifactNames [(_log_model "bst.model" m : NeptuneEvent μ ν)] = ["bst.model"] := rfl

theorem artifactNames_importance_single {μ ν : Type} (m : μ) (mnf : PyVal) :
    artifactNames [(NeptuneEvent.log_importance_image m mnf : NeptuneEvent μ ν)] = [] := rfl

/-- Claim C8: on a final iteration event with a truthy `log_model`, exactly
one artifact upload happens per model — `bst.model` for a single training
run, and one `cv-fold-<i>-bst.model` per fold in cross-validation mode —
and the artifact names are pairwise distinct, disambiguating the folds. -/
theorem C8_final_log_model_artifacts {μ ν : Type} (cb : XgbCallback)
    (env : CallbackEnv μ ν)
    (hfin : env.iteration + 1 = env.end_iteration)
    (hlm : cb.log_model.pyTruthy = true) :
    artifactNames (callback cb env) =
      (if cvTruthy env.cvfolds then
        (List.range (env.cvfolds.getD []).length).map fold_model_name
      else ["bst.model"]) ∧
    (artifactNames (callback cb env)).Nodup := by
  have hb : (env.iteration + 1 == env.end_iteration) = true := beq_iff_eq.mpr hfin
  have hnames : artifactNames (callback cb env) =
      (if cvTruthy env.cvfolds then
        (List.range (env.cvfolds.getD []).length).map fold_model_name
      else ["bst.model"]) := by
    unfold callback
    simp only [hb, hlm, Bool.true_and, if_true]
    rw [artifactNames_append, artifactNames_append, artifactNames_append,
      artifactNames_metric_map]
    rw [apply_ite artifactNames, apply_ite artifactNames, apply_ite artifactNames]
    rw [artifactNames_model_map, enum_fold_names, artifactNames_tree_map]
    simp only [artifactNames_single_model, artifactNames_importance_single,
      artifactNames_nil, ite_self, List.append_nil, List.nil_append]
  refine ⟨hnames, ?_⟩
  rw [hnames]
  by_cases hcv : cvTruthy env.cvfolds = true
  · simp only [hcv, if_true]
    exact List.Nodup.map fold_model_name_inj (List.nodup_range _)
  · simp [hcv]

/-- Witness for C8 on a concrete two-fold cross-validation final event. -/
theorem C8_final_log_model_artifacts_witness :
    (envCv.iteration + 1 = envCv.end_iteration) ∧
    (cbAllOn.log_model.pyTruthy = true) ∧
    (artifactNames (callback cbAllOn envCv) =
      (if cvTruthy envCv.cvfolds then
        (List.range (envCv.cvfolds.getD []).length).map fold_model_name
      else ["bst.model"]) ∧
    (artifactNames (callback cbAllOn envCv)).Nodup) :=
  ⟨rfl, rfl, C8_final_log_model_artifacts cbAllOn envCv rfl rfl⟩

theorem treeImageNames_append {μ ν : Type} (l₁ l₂ : List (NeptuneEvent μ ν)) :
    treeImageNames (l₁ ++ l₂) = treeImageNames l₁ ++ treeImageNames l₂ :=
  List.filterMap_append l₁ l₂ _

theorem treeImageNames_metric_map {μ ν : Type} (l : List (String × ν)) :
    treeImageNames ((l.map fun kv => NeptuneEvent.log_metric kv.1 kv.2 :
      List (NeptuneEvent μ ν))) = [] := by
  induction l with
  | nil => rfl
  | cons kv l ih => simp [treeImageNames, List.filterMap_cons, ih]

theorem treeImageNames_model_map {μ ν : Type} (l : List (Nat × CVPack μ)) :
    treeImageNames ((l.map fun ip => (_log_model (fold_model_name ip.1) ip.2.bst :
      NeptuneEvent μ ν))) = [] := by
  induction l with
  | nil => rfl
  | cons ip l ih => simp [treeImageNames, _log_model, List.filterMap_cons, ih]

theorem treeImageNames_tree_map {μ ν : Type} (model : μ) (l : List PyVal) :
    treeImageNames ((l.map fun i =>
      NeptuneEvent.log_tree_image ("tree_" ++ i.pyStr ++ ".png") ("tree_" ++ i.pyStr) model i :
        List (NeptuneEvent μ ν))) = l.map fun i => "tree_" ++ i.pyStr := by
  induction l with
  | nil => rfl
  | cons i l ih =>
    rw [List.map_cons, List.map_cons, ← ih]
    rfl

theorem treeImageNames_nil {μ ν : Type} :
    treeImageNames ([] : List (NeptuneEvent μ ν)) = [] := rfl

theorem treeImageNames_single_model {μ ν : Type} (m : μ) :
    treeImageNames [(_log_model "bst.model" m : NeptuneEvent μ ν)] = [] := rfl

theorem treeImageNames_importance_single {μ ν : Type} (m : μ) (mnf : PyVal) :
    treeImageNames [(NeptuneEvent.log_importance_image m mnf : NeptuneEvent μ ν)] = [] := rfl

theorem pyStr_int_two : PyVal.pyStr (.int 2) = "2" := by
  have h2 : Nat.digits 10 2 = [2] := Nat.digits_of_lt 10 2 (by norm_num) (by norm_num)
  simp [PyVal.pyStr, PyVal.pyRepr, pyFormatInt, pyFormatNat, pyNatChars, h2]
  rfl

theorem pyStr_int_five : PyVal.pyStr (.int 5) = "5" := by
  have h5 : Nat.digits 10 5 = [5] := Nat.digits_of_lt 10 5 (by norm_num) (by norm_num)
  simp [PyVal.pyStr, PyVal.pyRepr, pyFormatInt, pyFormatNat, pyNatChars, h5]
  rfl

theorem pyStr_int_zero : PyVal.pyStr (.int 0) = "0" := by
  simp [PyVal.pyStr, PyVal.pyRepr, pyFormatInt, pyFormatNat, pyNatChars]

/-- Claim C9: on a final iteration event with `log_tree = [0, 2, 5]`,
exactly three tree images are uploaded, tagged `tree_0`, `tree_2` and
`tree_5`, in the order the indices appear in the list (whatever the other
configuration options). -/
theorem C9_tree_images {μ ν : Type} (lm li mnf : PyVal) (env : CallbackEnv μ ν)
    (hfin : env.iteration + 1 = env.end_iteration) :
    treeImageNames (callback
      (XgbCallback.mk lm li mnf (.list [.int 0, .int 2, .int 5])) env) =
      ["tree_0", "tree_2", "tree_5"] := by
  have hb : (env.iteration + 1 == env.end_iteration) = true := beq_iff_eq.mpr hfin
  unfold callback
  simp only [hb, Bool.true_and]
  rw [treeImageNames_append, treeImageNames_append, treeImageNames_append,
    treeImageNames_metric_map]
  rw [apply_ite treeImageNames, apply_ite treeImageNames, apply_ite treeImageNames]
  rw [treeImageNames_model_map]
  simp only [treeImageNames_single_model, treeImageNames_importance_single,
    treeImageNames_nil, ite_self, List.append_nil, List.nil_append]
  have htruthy : (PyVal.list [PyVal.int 0, PyVal.int 2, PyVal.int 5]).pyTruthy = true := rfl
  rw [if_pos htruthy, treeImageNames_tree_map]
  simp only [PyVal.elems, List.map_cons, List.map_nil,
    pyStr_int_zero, pyStr_int_two, pyStr_int_five]
  rfl

/-- Witness for C9 on a concrete final-iteration training event. -/
theorem C9_tree_images_witness :
    (envTrain.iteration + 1 = envTrain.end_iteration) ∧
    treeImageNames (callback (XgbCallback.mk (.bool true) (.bool true) .none
      (.list [.int 0, .int 2, .int 5])) envTrain) = ["tree_0", "tree_2", "tree_5"] :=
  ⟨rfl, C9_tree_images (.bool true) (.bool true) .none envTrain rfl⟩

/-! ### Claims about the sync script -/

/-- Claim C1 is false on the code: with malformed JSON input (`parsed =
none`) the script does fail before the subprocess step, but only after the
driver script has been created and written and the configuration file has
been created — `main` writes `neptune_sync_main.py` and opens
`neptune_sync_config.yaml` before `write_config_content` ever parses the
JSON document. -/
theorem C1_counterexample :
    (main "experiment_data.json" "neptune-ml/neptune-examples" none 0 0).2 =
      .error PyErr.jsonDecodeError ∧
    (main "experiment_data.json" "neptune-ml/neptune-examples" none 0 0).1 =
      [SyncEvent.createFile "neptune_sync_main.py",
       SyncEvent.fileWrite "neptune_sync_main.py" (write_main_content "experiment_data.json"),
       SyncEvent.createFile "neptune_sync_config.yaml"] :=
  ⟨rfl, rfl⟩

/-- Claim C1 as amended: whenever `write_config_content` fails (malformed
JSON or missing/ill-typed top-level keys), `main` propagates exactly that
failure and never reaches either subprocess invocation — but both the
driver script and the configuration file have already been created on
disk. -/
theorem C1_amended_files_created_before_parse_failure
    (filepath project : String) (parsed : Option Json) (syncExit rmExit : Int)
    (e : PyErr) (h : (write_config_content parsed).2 = .error e) :
    (main filepath project parsed syncExit rmExit).2 = .error e ∧
    SyncEvent.createFile "neptune_sync_main.py" ∈
      (main filepath project parsed syncExit rmExit).1 ∧
    SyncEvent.createFile "neptune_sync_config.yaml" ∈
      (main filepath project parsed syncExit rmExit).1 ∧
    ∀ cmd code, SyncEvent.subprocessCall cmd code ∉
      (main filepath project parsed syncExit rmExit).1 := by
  refine ⟨?_, ?_, ?_, ?_⟩
  · simp only [main, h]
  · simp [main, h]
  · simp [main, h]
  · intro cmd code
    simp [main, h]

/-- Witness for the amended C1 at the malformed-JSON input. -/
theorem C1_amended_files_created_before_parse_failure_witness :
    ((write_config_content none).2 = .error PyErr.jsonDecodeError) ∧
    ((main "experiment_data.json" "p" none 0 0).2 = .error PyErr.jsonDecodeError ∧
     SyncEvent.createFile "neptune_sync_main.py" ∈
       (main "experiment_data.json" "p" none 0 0).1 ∧
     SyncEvent.createFile "neptune_sync_config.yaml" ∈
       (main "experiment_data.json" "p" none 0 0).1 ∧
     ∀ cmd code, SyncEvent.subprocessCall cmd code ∉
       (main "experiment_data.json" "p" none 0 0).1) :=
  ⟨rfl, C1_amended_files_created_before_parse_failure "experiment_data.json" "p"
    none 0 0 PyErr.jsonDecodeError rfl⟩

/-- Claim C2 is false on the code: with a well-formed document and the sync
subprocess exiting with code 1, `main` still completes successfully — the
return value of `subprocess.call` is discarded, so the non-zero exit is not
surfaced to the script's caller. -/
theorem C2_counterexample :
    (main "experiment_data.json" "neptune-ml/neptune-examples" (some doc0) 1 0).2 =
      .ok () ∧
    SyncEvent.subprocessCall (sync_command "neptune-ml/neptune-examples") 1 ∈
      (main "experiment_data.json" "neptune-ml/neptune-examples" (some doc0) 1 0).1 := by
  refine ⟨rfl, ?_⟩
  simp [main, doc0, write_config_content, Json.getItem, Json.items, List.lookup]

/-- Claim C2 as amended: the sync subprocess's exit code is read and
discarded.  For every well-formed document, `main` completes with success
whatever the exit codes of the sync and cleanup subprocesses, both of which
are invoked. -/
theorem C2_amended_exit_code_ignored (filepath project : String) (data : Json)
    (syncExit rmExit : Int)
    (h : (write_config_content (some data)).2 = .ok ()) :
    (main filepath project (some data) syncExit rmExit).2 = .ok () ∧
    SyncEvent.subprocessCall (sync_command project) syncExit ∈
      (main filepath project (some data) syncExit rmExit).1 ∧
    SyncEvent.subprocessCall rm_command rmExit ∈
      (main filepath project (some data) syncExit rmExit).1 := by
  refine ⟨?_, ?_, ?_⟩ <;> simp [main, h]

/-- Witness for the amended C2 with a failing sync subprocess (exit 1). -/
theorem C2_amended_exit_code_ignored_witness :
    ((write_config_content (some doc0)).2 = .ok ()) ∧
    ((main "experiment_data.json" "p" (some doc0) 1 2).2 = .ok () ∧
     SyncEvent.subprocessCall (sync_command "p") 1 ∈
       (main "experiment_data.json" "p" (some doc0) 1 2).1 ∧
     SyncEvent.subprocessCall rm_command 2 ∈
       (main "experiment_data.json" "p" (some doc0) 1 2).1) :=
  ⟨rfl, C2_amended_exit_code_ignored "experiment_data.json" "p" doc0 1 2 rfl⟩

theorem sendChannel_encoded (name : String) (c : ChannelData) :
    sendChannel name c.toJson =
      ((c.x.zip c.y).map fun p => DriverEvent.channel_send name p.1 p.2, .ok ()) := rfl

theorem sendChannels_encoded (cs : List (String × ChannelData)) :
    sendChannels (cs.map fun c => (c.1, c.2.toJson)) =
      ((cs.map fun c => (c.2.x.zip c.2.y).map fun p =>
        DriverEvent.channel_send c.1 p.1 p.2).flatten, .ok ()) := by
  induction cs with
  | nil => rfl
  | cons c rest ih =>
    simp only [List.map_cons, sendChannels, sendChannel_encoded c.1 c.2, ih,
      List.flatten_cons]

/-- Claim C5: executed against a well-formed experiment document, the
generated driver script sends exactly one metric point per zipped (x, y)
pair of every named channel, in the arrays' given order, then sets each
property, then appends each tag — and nothing else. -/
theorem C5_driver_replay (r : ExperimentRecord) :
    run_driver r.toJson =
      (channelEvents r ++ propertyEvents r ++ tagEvents r, .ok ()) := by
  have h1 : (r.toJson).getItem "channels" =
      .ok (.obj (r.channels.map fun c => (c.1, c.2.toJson))) := rfl
  have h2 : (r.toJson).getItem "properties" = .ok (.obj r.properties) := rfl
  have h3 : (r.toJson).getItem "tags" = .ok (.arr r.tags) := rfl
  simp only [run_driver, h1, h2, h3, Json.items, Json.pyIterate,
    sendChannels_encoded, channelEvents, propertyEvents, tagEvents]
